import Mathlib

set_option maxRecDepth 100000

/-!
Verification of the MLX90642 support layer of the mlx9064x driver crate.

The repository sources verified here are the MLX90642 EEPROM handling
(Mlx90642Calibration and its helpers), the MLX90642 camera delegation to the
MLX90641 camera, and the terminal-temperatures CLI example.  Components of the
crate that the MLX90642 layer reuses but whose sources are not part of this
tree (the MLX90641 Hamming code, the MLX90641 calibration parser, the MLX90641
camera implementation and the register enums) are modelled from the
specification; every such definition carries a doc comment starting with
"Modelled from the spec:".

Machine integers are embedded as Nat; byte buffers are lists of Nat where each
use site reduces a byte modulo 256, matching u8 semantics.  Floating point
calibration values are embedded as rationals: no claim verified here depends
on rounding behaviour, only on which value is returned.
-/

/-- Modelled from the spec: one of the two readout subpages (register.rs is not
under src/). -/
inductive Subpage where
  | Zero
  | One
deriving DecidableEq

/-- Modelled from the spec: the pixel-to-subpage assignment scheme,
row-interleaved or checkerboard (register.rs is not under src/). -/
inductive AccessPattern where
  | Interleave
  | Chess
deriving DecidableEq

/-- Modelled from the spec: the ADC resolution setting (register.rs is not
under src/). -/
inductive Resolution where
  | Sixteen
  | Seventeen
  | Eighteen
  | Nineteen
deriving DecidableEq

/-- Modelled from the spec: the error taxonomy of the crate (error.rs is not
under src/).  The variants used by the sources under src/ are InvalidData
(carrying a static message) and Checksum (carrying the address of the failing
word); the spec names ConfigurationError and StatusError as the remaining
library error kinds. -/
inductive LibraryError where
  | InvalidData (msg : String)
  | Checksum (address : Nat)
  | Configuration (msg : String)
  | Status (value : Nat)
deriving DecidableEq

instance {ε α : Type} [DecidableEq ε] [DecidableEq α] : DecidableEq (Except ε α)
  | .error e1, .error e2 =>
    if h : e1 = e2 then .isTrue (by rw [h])
    else .isFalse (by intro hc; cases hc; exact h rfl)
  | .error _, .ok _ => .isFalse (by intro h; cases h)
  | .ok _, .error _ => .isFalse (by intro h; cases h)
  | .ok a1, .ok a2 =>
    if h : a1 = a2 then .isTrue (by rw [h])
    else .isFalse (by intro hc; cases hc; exact h rfl)

/-- Length of the MLX90642 EEPROM region in bytes, from src/mlx90642/eeprom.rs. -/
def EEPROM_LENGTH : Nat := (0x2740 - 0x2400) * 2

/-- Base address of the EEPROM window, from src/mlx90642/eeprom.rs. -/
def EEPROM_BASE : Nat := 0x2400

/-- Number of data bits present in the MLX90641 Hamming codewords, from
src/mlx90642/eeprom.rs. -/
def HAMMING_DATA_MASK : Nat := 0x07FF

/-- Modelled from the spec: the column of the SECDED parity-check matrix for
data bit j of the 11-bit payload.  The spec fixes the code contract (11 data
bits in the low bits of the word as witnessed by HAMMING_DATA_MASK, five check
bits, single-error correction, positive double-error detection) but the
concrete parity equations live in the MLX90641 hamming module, which is not
under src/.  A standard odd-weight-column SECDED(16,11) matrix is used: the
data columns are the ten weight-3 five-bit values together with 0b11111, and
each check bit contributes a one-hot column. -/
def colMask : Nat → Nat
  | 0 => 7
  | 1 => 11
  | 2 => 13
  | 3 => 14
  | 4 => 19
  | 5 => 21
  | 6 => 22
  | 7 => 25
  | 8 => 26
  | 9 => 28
  | 10 => 31
  | _ => 0

/-- Modelled from the spec: the five check bits computed for an 11-bit
payload, as the XOR of the columns of the data bits that are set. -/
def checkBits (d : Nat) : Nat :=
  (List.range 11).foldl (fun acc j => if d.testBit j then acc ^^^ colMask j else acc) 0

/-- Modelled from the spec: add_checksum from the MLX90641 hamming module
(not under src/).  It computes the check bits for a bare 11-bit payload and
returns the full 16-bit codeword; a payload that does not fit in 11 bits is
rejected. -/
def add_checksum (data : Nat) : Except LibraryError Nat :=
  if data > HAMMING_DATA_MASK then
    .error (.InvalidData "payload does not fit in the Hamming data bits")
  else
    .ok (data ||| (checkBits data <<< 11))

/-- Modelled from the spec: the per-word checksum decode of the MLX90641
hamming module (not under src/).  A zero syndrome returns the payload
unchanged; a syndrome matching a single-bit error position flips that bit and
returns the corrected payload; any other syndrome is an uncorrectable error. -/
def decode_checksum (word : Nat) : Option Nat :=
  let w := word % 65536
  let dataBits := w &&& HAMMING_DATA_MASK
  let received := w >>> 11
  let syndrome := received ^^^ checkBits dataBits
  if syndrome = 0 then
    some dataBits
  else if syndrome = 1 ∨ syndrome = 2 ∨ syndrome = 4 ∨ syndrome = 8 ∨ syndrome = 16 then
    some dataBits
  else
    match (List.range 11).find? (fun j => colMask j = syndrome) with
    | some j => some (dataBits ^^^ (1 <<< j))
    | none => none

/-- A 16-bit word has a zero Hamming syndrome: its stored check bits equal the
check bits recomputed from its data bits. -/
def zero_syndrome (w : Nat) : Bool :=
  decide ((w % 65536) >>> 11 = checkBits ((w % 65536) &&& HAMMING_DATA_MASK))

/-- Big-endian 16-bit words of a byte buffer, as produced by iterating
chunks_exact(2) with u16::from_be_bytes; a trailing odd byte is dropped. -/
def toWords : List Nat → List Nat
  | b0 :: b1 :: rest => ((b0 % 256) * 256 + b1 % 256) :: toWords rest
  | _ => []

/-- Modelled from the spec: the MLX90641 calibration produced by the primary
decoder (mlx90641 module, not under src/).  The decoded payload sequence
determines every calibration field through the documented bit layout; the
calibration is therefore represented by that payload sequence, and the
individual field accessors below are fixed projections of it. -/
structure Mlx90641Calibration where
  payloads : List Nat
deriving DecidableEq

/-- Checksum-decode a word list, failing at the first uncorrectable word with
the address of that word (the EEPROM window starts at EEPROM_BASE and each
address holds one 16-bit word). -/
def decodeWords : Nat → List Nat → Except LibraryError (List Nat)
  | _, [] => .ok []
  | i, w :: ws =>
    match decode_checksum w with
    | none => .error (.Checksum (EEPROM_BASE + i))
    | some p => (decodeWords (i + 1) ws).map (fun rest => p :: rest)

/-- Modelled from the spec: Mlx90641Calibration::from_data, the primary
MLX90641 parser (not under src/).  Per the spec it rejects a buffer whose
length differs from the fixed window, checksum-decodes every big-endian word
aborting at the first failure, and otherwise builds the calibration from the
decoded payloads.  The field bit-slicing performed by the real parser is a
function of the payload sequence and is absorbed into the
Mlx90641Calibration representation. -/
def Mlx90641Calibration.from_data (data : List Nat) : Except LibraryError Mlx90641Calibration :=
  if data.length ≠ EEPROM_LENGTH then
    .error (.InvalidData "MLX90641 EEPROM dump has an unexpected length")
  else
    (decodeWords 0 (toWords data)).map Mlx90641Calibration.mk

/-- MLX90642-specific calibration wrapper, from src/mlx90642/eeprom.rs: a
newtype around the MLX90641 calibration. -/
structure Mlx90642Calibration where
  wrapped : Mlx90641Calibration
deriving DecidableEq

/-- Byte-pair body of Mlx90642Calibration::synthesize_checksums: for each
big-endian word, keep only the Hamming data bits, recompute the checksum via
add_checksum, and emit the big-endian bytes of the resulting codeword. -/
def synthWords : List Nat → Except LibraryError (List Nat)
  | b0 :: b1 :: rest =>
    let raw_word := (b0 % 256) * 256 + b1 % 256
    let data_bits := raw_word &&& HAMMING_DATA_MASK
    (add_checksum data_bits).bind (fun with_checksum =>
      (synthWords rest).map (fun tail =>
        (with_checksum / 256 % 256) :: (with_checksum % 256) :: tail))
  | _ => .ok []

/-- Mlx90642Calibration::synthesize_checksums from src/mlx90642/eeprom.rs. -/
def Mlx90642Calibration.synthesize_checksums (data : List Nat) :
    Except LibraryError (List Nat) :=
  if data.length ≠ EEPROM_LENGTH then
    .error (.InvalidData "MLX90642 EEPROM dump has an unexpected length")
  else
    synthWords data

/-- Mlx90642Calibration::parse_mlx90641_calibration from
src/mlx9064x/src/mlx90642/eeprom.rs: try the native MLX90641 parser first and
retry on synthesized checksums only when it failed with a checksum error. -/
def Mlx90642Calibration.parse_mlx90641_calibration (data : List Nat) :
    Except LibraryError Mlx90641Calibration :=
  match Mlx90641Calibration.from_data data with
  | .ok calibration => .ok calibration
  | .error (.Checksum _) =>
    match Mlx90642Calibration.synthesize_checksums data with
    | .ok corrected => Mlx90641Calibration.from_data corrected
    | .error e => .error e
  | .error err => .error err

/-- Mlx90642Calibration::from_data from src/mlx90642/eeprom.rs. -/
def Mlx90642Calibration.from_data (data : List Nat) :
    Except LibraryError Mlx90642Calibration :=
  if data.length ≠ EEPROM_LENGTH then
    .error (.InvalidData "MLX90642 EEPROM dump has an unexpected length")
  else
    (Mlx90642Calibration.parse_mlx90641_calibration data).map Mlx90642Calibration.mk

/-- The checksum-stripping transformation of the synthesizes_missing_checksums
test in src/mlx90642/eeprom.rs: every big-endian word is masked down to its
Hamming data bits and written back big-endian. -/
def strip_check_bits : List Nat → List Nat
  | b0 :: b1 :: rest =>
    let word := (b0 % 256) * 256 + b1 % 256
    let masked := word &&& HAMMING_DATA_MASK
    (masked / 256) :: (masked % 256) :: strip_check_bits rest
  | rest => rest

/-- One I2C write_read transaction: device address, the register bytes
written, and the number of bytes read back. -/
structure I2cOp where
  device : Nat
  register : List Nat
  readLen : Nat
deriving DecidableEq

/-- The driver error type of the crate (error.rs is not under src/): the
variant used by src/mlx90642/eeprom.rs wraps a bus write_read failure, and
library errors are converted via From. -/
inductive Error (ε : Type) where
  | I2cWriteReadError (e : ε)
  | Library (e : LibraryError)
deriving DecidableEq

/-- Big-endian byte serialization of a 16-bit register address, as
Address::as_bytes produces for the write_read register argument. -/
def address_as_bytes (a : Nat) : List Nat := [a / 256 % 256, a % 256]

/-- Mlx90642Calibration::from_i2c from src/mlx90642/eeprom.rs.  The blocking
bus is embedded as a pure function from a transaction to its outcome, and the
returned list records every transaction issued.  The 1664-byte read buffer
starts zeroed and receives the bus response. -/
def Mlx90642Calibration.from_i2c (ε : Type) (bus : I2cOp → Except ε (List Nat))
    (i2c_address : Nat) : Except (Error ε) Mlx90642Calibration × List I2cOp :=
  let op : I2cOp := ⟨i2c_address, address_as_bytes EEPROM_BASE, EEPROM_LENGTH⟩
  match bus op with
  | .error e => (.error (.I2cWriteReadError e), [op])
  | .ok response =>
    let eeprom_buf := (response ++ List.replicate EEPROM_LENGTH 0).take EEPROM_LENGTH
    ((Mlx90642Calibration.from_data eeprom_buf).mapError Error.Library, [op])

/-- An address span of pixel memory yielded by a pixel-range iterator. -/
structure PixelRange where
  start_address : Nat
  span : Nat
deriving DecidableEq

namespace Mlx90641

/-- Modelled from the spec: MLX90641 grid height (the MLX90641 camera
implementation is not under src/; the 12x16 geometry is fixed by the variant). -/
def HEIGHT : Nat := 12

/-- Modelled from the spec: MLX90641 grid width. -/
def WIDTH : Nat := 16

/-- Modelled from the spec: MLX90641 total pixel count, HEIGHT * WIDTH. -/
def NUM_PIXELS : Nat := HEIGHT * WIDTH

/-- Modelled from the spec: ambient-sensor register (per-variant register-map
configuration data; the concrete value is opaque to every claim proved here). -/
def T_A_V_BE : Nat := 0x05A0

/-- Modelled from the spec: ambient-sensor PTAT register (opaque
configuration constant). -/
def T_A_PTAT : Nat := 0x05B0

/-- Modelled from the spec: gain register (opaque configuration constant). -/
def GAIN : Nat := 0x058A

/-- Modelled from the spec: supply-voltage pixel register (opaque
configuration constant). -/
def V_DD_PIXEL : Nat := 0x05AA

/-- Modelled from the spec: index of the basic temperature range (opaque
configuration constant). -/
def BASIC_TEMPERATURE_RANGE : Nat := 1

/-- Modelled from the spec: self-heating correction constant (opaque
configuration constant; floats are embedded as rationals). -/
def SELF_HEATING : ℚ := -8

/-- Modelled from the spec: the compensation-pixel register for a subpage
(opaque configuration constants). -/
def compensation_pixel (subpage : Subpage) : Nat :=
  match subpage with
  | .Zero => 0x0588
  | .One => 0x0598

/-- Modelled from the spec: the ordered address spans read for one subpage
(the SubpageInterleave iterator of the MLX90641 module, not under src/).
Every claim proved here uses this definition opaquely through the MLX90642
delegation. -/
def pixel_ranges (subpage : Subpage) (_access_pattern : AccessPattern) :
    List PixelRange :=
  match subpage with
  | .Zero => [⟨0x0400, NUM_PIXELS⟩]
  | .One => [⟨0x0400 + NUM_PIXELS, NUM_PIXELS⟩]

/-- Modelled from the spec: MLX90641 subpage membership.  The MLX90642
delegating type fixes the iterator shape to repeat-take, so membership is a
constant boolean repeated NUM_PIXELS times. -/
def pixels_in_subpage (_subpage : Subpage) (_access_pattern : AccessPattern) :
    List Bool :=
  List.replicate NUM_PIXELS true

/-- Modelled from the spec: number of ADC bits selected by a resolution
setting. -/
def resolutionBits (r : Resolution) : Nat :=
  match r with
  | .Sixteen => 16
  | .Seventeen => 17
  | .Eighteen => 18
  | .Nineteen => 19

/-- Modelled from the spec: the scale factor compensating an ADC-resolution
mismatch between factory calibration and runtime configuration. -/
def resolution_correction (calibrated_resolution : Resolution)
    (current_resolution : Resolution) : ℚ :=
  (2 ^ resolutionBits calibrated_resolution : ℚ) /
    (2 ^ resolutionBits current_resolution : ℚ)

end Mlx90641

namespace Mlx90642

/-- Mlx90642 pixel_ranges, from src/mlx90642/mod.rs: delegates to the
MLX90641 implementation. -/
def pixel_ranges (subpage : Subpage) (access_pattern : AccessPattern) :
    List PixelRange :=
  Mlx90641.pixel_ranges subpage access_pattern

/-- Mlx90642 pixels_in_subpage, from src/mlx90642/mod.rs: delegates to the
MLX90641 implementation. -/
def pixels_in_subpage (subpage : Subpage) (access_pattern : AccessPattern) :
    List Bool :=
  Mlx90641.pixels_in_subpage subpage access_pattern

/-- Mlx90642 T_A_V_BE, from src/mlx90642/mod.rs. -/
def T_A_V_BE : Nat := Mlx90641.T_A_V_BE

/-- Mlx90642 T_A_PTAT, from src/mlx90642/mod.rs. -/
def T_A_PTAT : Nat := Mlx90641.T_A_PTAT

/-- Mlx90642 compensation_pixel, from src/mlx90642/mod.rs. -/
def compensation_pixel (subpage : Subpage) : Nat :=
  Mlx90641.compensation_pixel subpage

/-- Mlx90642 GAIN, from src/mlx90642/mod.rs. -/
def GAIN : Nat := Mlx90641.GAIN

/-- Mlx90642 V_DD_PIXEL, from src/mlx90642/mod.rs. -/
def V_DD_PIXEL : Nat := Mlx90641.V_DD_PIXEL

/-- Mlx90642 resolution_correction, from src/mlx90642/mod.rs. -/
def resolution_correction (calibrated_resolution : Resolution)
    (current_resolution : Resolution) : ℚ :=
  Mlx90641.resolution_correction calibrated_resolution current_resolution

/-- Mlx90642 BASIC_TEMPERATURE_RANGE, from src/mlx90642/mod.rs. -/
def BASIC_TEMPERATURE_RANGE : Nat := Mlx90641.BASIC_TEMPERATURE_RANGE

/-- Mlx90642 SELF_HEATING, from src/mlx90642/mod.rs. -/
def SELF_HEATING : ℚ := Mlx90641.SELF_HEATING

/-- Mlx90642 HEIGHT, from src/mlx90642/mod.rs. -/
def HEIGHT : Nat := Mlx90641.HEIGHT

/-- Mlx90642 WIDTH, from src/mlx90642/mod.rs. -/
def WIDTH : Nat := Mlx90641.WIDTH

/-- Mlx90642 NUM_PIXELS, from src/mlx90642/mod.rs. -/
def NUM_PIXELS : Nat := Mlx90641.NUM_PIXELS

end Mlx90642

/-- Index of a subpage, used to select per-subpage calibration fields. -/
def subpageIdx (s : Subpage) : Nat :=
  match s with
  | .Zero => 0
  | .One => 1

/-- Index of an access pattern, used to select per-pattern calibration fields. -/
def accessPatternIdx (p : AccessPattern) : Nat :=
  match p with
  | .Interleave => 0
  | .Chess => 1

namespace Mlx90641Calibration

/-- Payload word at a given position of the decoded sequence, defaulting to
zero.  Modelled from the spec: every MLX90641 calibration accessor below is a
fixed projection of the decoded payload sequence; the crate bit-slices the
payloads per a documented field layout that is not under src/, and the claims
proved about these accessors (pure delegation by the MLX90642 wrapper) hold
for any such projection, so simple representative projections are used. -/
def field (c : Mlx90641Calibration) (i : Nat) : Nat :=
  c.payloads.getD i 0

/-- Modelled from the spec: supply-voltage slope coefficient. -/
def k_v_dd (c : Mlx90641Calibration) : Int := Int.ofNat (c.field 0)

/-- Modelled from the spec: supply-voltage reference at 25 degrees. -/
def v_dd_25 (c : Mlx90641Calibration) : Int := Int.ofNat (c.field 1)

/-- Modelled from the spec: the ADC resolution the device was calibrated at. -/
def resolution (c : Mlx90641Calibration) : Resolution :=
  match c.field 2 % 4 with
  | 0 => .Sixteen
  | 1 => .Seventeen
  | 2 => .Eighteen
  | _ => .Nineteen

/-- Modelled from the spec: nominal supply voltage. -/
def v_dd_0 (c : Mlx90641Calibration) : ℚ := (c.field 3 : ℚ)

/-- Modelled from the spec: ambient-estimation voltage slope. -/
def k_v_ptat (c : Mlx90641Calibration) : ℚ := (c.field 4 : ℚ)

/-- Modelled from the spec: ambient-estimation temperature slope. -/
def k_t_ptat (c : Mlx90641Calibration) : ℚ := (c.field 5 : ℚ)

/-- Modelled from the spec: ambient reference-diode voltage at 25 degrees. -/
def v_ptat_25 (c : Mlx90641Calibration) : ℚ := (c.field 6 : ℚ)

/-- Modelled from the spec: PTAT scaling coefficient. -/
def alpha_ptat (c : Mlx90641Calibration) : ℚ := (c.field 7 : ℚ)

/-- Modelled from the spec: ADC gain coefficient. -/
def gain (c : Mlx90641Calibration) : ℚ := (c.field 8 : ℚ)

/-- Modelled from the spec: sensitivity ambient-temperature slope. -/
def k_s_ta (c : Mlx90641Calibration) : ℚ := (c.field 9 : ℚ)

/-- Modelled from the spec: the ascending corner temperatures partitioning
the ambient range into gain-correction bands. -/
def corner_temperatures (c : Mlx90641Calibration) : List Int :=
  ((c.payloads.drop 10).take 8).map Int.ofNat

/-- Modelled from the spec: per-band sensitivity slopes. -/
def k_s_to (c : Mlx90641Calibration) : List ℚ :=
  ((c.payloads.drop 18).take 9).map (fun n => (n : ℚ))

/-- Modelled from the spec: per-band sensitivity corrections. -/
def alpha_correction (c : Mlx90641Calibration) : List ℚ :=
  ((c.payloads.drop 27).take 9).map (fun n => (n : ℚ))

/-- Modelled from the spec: optional stored emissivity. -/
def emissivity (c : Mlx90641Calibration) : Option ℚ :=
  if c.field 36 = 0 then none else some (c.field 36 : ℚ)

/-- Modelled from the spec: per-pixel offset references for a subpage. -/
def offset_reference_pixels (c : Mlx90641Calibration) (subpage : Subpage) :
    List Int :=
  ((c.payloads.drop (40 + subpageIdx subpage)).take Mlx90641.NUM_PIXELS).map Int.ofNat

/-- Modelled from the spec: compensation-pixel offset reference for a subpage. -/
def offset_reference_cp (c : Mlx90641Calibration) (subpage : Subpage) : Int :=
  Int.ofNat (c.field (37 + subpageIdx subpage))

/-- Modelled from the spec: per-pixel sensitivities for a subpage. -/
def alpha_pixels (c : Mlx90641Calibration) (subpage : Subpage) : List ℚ :=
  ((c.payloads.drop (50 + subpageIdx subpage)).take Mlx90641.NUM_PIXELS).map
    (fun n => (n : ℚ))

/-- Modelled from the spec: compensation-pixel sensitivity for a subpage. -/
def alpha_cp (c : Mlx90641Calibration) (subpage : Subpage) : ℚ :=
  (c.field (60 + subpageIdx subpage) : ℚ)

/-- Modelled from the spec: per-pixel voltage sensitivities for a subpage. -/
def k_v_pixels (c : Mlx90641Calibration) (subpage : Subpage) : List ℚ :=
  ((c.payloads.drop (62 + subpageIdx subpage)).take Mlx90641.NUM_PIXELS).map
    (fun n => (n : ℚ))

/-- Modelled from the spec: compensation-pixel voltage sensitivity. -/
def k_v_cp (c : Mlx90641Calibration) (subpage : Subpage) : ℚ :=
  (c.field (64 + subpageIdx subpage) : ℚ)

/-- Modelled from the spec: per-pixel temperature sensitivities for a subpage. -/
def k_ta_pixels (c : Mlx90641Calibration) (subpage : Subpage) : List ℚ :=
  ((c.payloads.drop (66 + subpageIdx subpage)).take Mlx90641.NUM_PIXELS).map
    (fun n => (n : ℚ))

/-- Modelled from the spec: compensation-pixel temperature sensitivity. -/
def k_ta_cp (c : Mlx90641Calibration) (subpage : Subpage) : ℚ :=
  (c.field (68 + subpageIdx subpage) : ℚ)

/-- Modelled from the spec: optional temperature-gradient coefficient. -/
def temperature_gradient_coefficient (c : Mlx90641Calibration) : Option ℚ :=
  if c.field 70 = 0 then none else some (c.field 70 : ℚ)

/-- Modelled from the spec: per-pixel compensation factors under an access
pattern. -/
def access_pattern_compensation_pixels (c : Mlx90641Calibration)
    (access_pattern : AccessPattern) : List ℚ :=
  ((c.payloads.drop (72 + accessPatternIdx access_pattern)).take
    Mlx90641.NUM_PIXELS).map (fun n => (n : ℚ))

/-- Modelled from the spec: compensation-pixel scalar for a subpage under an
access pattern, when defined. -/
def access_pattern_compensation_cp (c : Mlx90641Calibration) (subpage : Subpage)
    (access_pattern : AccessPattern) : Option ℚ :=
  if c.field (74 + 2 * subpageIdx subpage + accessPatternIdx access_pattern) = 0
  then none
  else some (c.field (74 + 2 * subpageIdx subpage + accessPatternIdx access_pattern) : ℚ)

/-- Modelled from the spec: indices of pixels flagged failed by the reserved
sentinel rule. -/
def failed_pixels (c : Mlx90641Calibration) : List Nat :=
  (List.range Mlx90641.NUM_PIXELS).filter
    (fun i => c.field (80 + i) = HAMMING_DATA_MASK)

/-- Modelled from the spec: indices of pixels flagged outlier by the
value-range rule. -/
def outlier_pixels (c : Mlx90641Calibration) : List Nat :=
  (List.range Mlx90641.NUM_PIXELS).filter
    (fun i => c.field (80 + i) = HAMMING_DATA_MASK - 1)

end Mlx90641Calibration

namespace Mlx90642Calibration

/-- Mlx90642 k_v_dd, from src/mlx90642/eeprom.rs: forwards to the wrapped
MLX90641 calibration (as does every accessor below). -/
def k_v_dd (c : Mlx90642Calibration) : Int := c.wrapped.k_v_dd

/-- Mlx90642 v_dd_25, from src/mlx90642/eeprom.rs. -/
def v_dd_25 (c : Mlx90642Calibration) : Int := c.wrapped.v_dd_25

/-- Mlx90642 resolution, from src/mlx90642/eeprom.rs. -/
def resolution (c : Mlx90642Calibration) : Resolution := c.wrapped.resolution

/-- Mlx90642 v_dd_0, from src/mlx90642/eeprom.rs. -/
def v_dd_0 (c : Mlx90642Calibration) : ℚ := c.wrapped.v_dd_0

/-- Mlx90642 k_v_ptat, from src/mlx90642/eeprom.rs. -/
def k_v_ptat (c : Mlx90642Calibration) : ℚ := c.wrapped.k_v_ptat

/-- Mlx90642 k_t_ptat, from src/mlx90642/eeprom.rs. -/
def k_t_ptat (c : Mlx90642Calibration) : ℚ := c.wrapped.k_t_ptat

/-- Mlx90642 v_ptat_25, from src/mlx90642/eeprom.rs. -/
def v_ptat_25 (c : Mlx90642Calibration) : ℚ := c.wrapped.v_ptat_25

/-- Mlx90642 alpha_ptat, from src/mlx90642/eeprom.rs. -/
def alpha_ptat (c : Mlx90642Calibration) : ℚ := c.wrapped.alpha_ptat

/-- Mlx90642 gain, from src/mlx90642/eeprom.rs. -/
def gain (c : Mlx90642Calibration) : ℚ := c.wrapped.gain

/-- Mlx90642 k_s_ta, from src/mlx90642/eeprom.rs. -/
def k_s_ta (c : Mlx90642Calibration) : ℚ := c.wrapped.k_s_ta

/-- Mlx90642 corner_temperatures, from src/mlx90642/eeprom.rs. -/
def corner_temperatures (c : Mlx90642Calibration) : List Int :=
  c.wrapped.corner_temperatures

/-- Mlx90642 k_s_to, from src/mlx90642/eeprom.rs. -/
def k_s_to (c : Mlx90642Calibration) : List ℚ := c.wrapped.k_s_to

/-- Mlx90642 alpha_correction, from src/mlx90642/eeprom.rs. -/
def alpha_correction (c : Mlx90642Calibration) : List ℚ :=
  c.wrapped.alpha_correction

/-- Mlx90642 emissivity, from src/mlx90642/eeprom.rs. -/
def emissivity (c : Mlx90642Calibration) : Option ℚ := c.wrapped.emissivity

/-- Mlx90642 offset_reference_pixels, from src/mlx90642/eeprom.rs. -/
def offset_reference_pixels (c : Mlx90642Calibration) (subpage : Subpage) :
    List Int :=
  c.wrapped.offset_reference_pixels subpage

/-- Mlx90642 offset_reference_cp, from src/mlx90642/eeprom.rs. -/
def offset_reference_cp (c : Mlx90642Calibration) (subpage : Subpage) : Int :=
  c.wrapped.offset_reference_cp subpage

/-- Mlx90642 alpha_pixels, from src/mlx90642/eeprom.rs. -/
def alpha_pixels (c : Mlx90642Calibration) (subpage : Subpage) : List ℚ :=
  c.wrapped.alpha_pixels subpage

/-- Mlx90642 alpha_cp, from src/mlx90642/eeprom.rs. -/
def alpha_cp (c : Mlx90642Calibration) (subpage : Subpage) : ℚ :=
  c.wrapped.alpha_cp subpage

/-- Mlx90642 k_v_pixels, from src/mlx90642/eeprom.rs. -/
def k_v_pixels (c : Mlx90642Calibration) (subpage : Subpage) : List ℚ :=
  c.wrapped.k_v_pixels subpage

/-- Mlx90642 k_v_cp, from src/mlx90642/eeprom.rs. -/
def k_v_cp (c : Mlx90642Calibration) (subpage : Subpage) : ℚ :=
  c.wrapped.k_v_cp subpage

/-- Mlx90642 k_ta_pixels, from src/mlx90642/eeprom.rs. -/
def k_ta_pixels (c : Mlx90642Calibration) (subpage : Subpage) : List ℚ :=
  c.wrapped.k_ta_pixels subpage

/-- Mlx90642 k_ta_cp, from src/mlx90642/eeprom.rs. -/
def k_ta_cp (c : Mlx90642Calibration) (subpage : Subpage) : ℚ :=
  c.wrapped.k_ta_cp subpage

/-- Mlx90642 temperature_gradient_coefficient, from src/mlx90642/eeprom.rs. -/
def temperature_gradient_coefficient (c : Mlx90642Calibration) : Option ℚ :=
  c.wrapped.temperature_gradient_coefficient

/-- Mlx90642 access_pattern_compensation_pixels, from src/mlx90642/eeprom.rs. -/
def access_pattern_compensation_pixels (c : Mlx90642Calibration)
    (access_pattern : AccessPattern) : List ℚ :=
  c.wrapped.access_pattern_compensation_pixels access_pattern

/-- Mlx90642 access_pattern_compensation_cp, from src/mlx90642/eeprom.rs. -/
def access_pattern_compensation_cp (c : Mlx90642Calibration) (subpage : Subpage)
    (access_pattern : AccessPattern) : Option ℚ :=
  c.wrapped.access_pattern_compensation_cp subpage access_pattern

/-- Mlx90642 failed_pixels, from src/mlx90642/eeprom.rs. -/
def failed_pixels (c : Mlx90642Calibration) : List Nat := c.wrapped.failed_pixels

/-- Mlx90642 outlier_pixels, from src/mlx90642/eeprom.rs. -/
def outlier_pixels (c : Mlx90642Calibration) : List Nat :=
  c.wrapped.outlier_pixels

end Mlx90642Calibration

/-- Error kind of Rust core integer parsing, as observable from
u8::from_str_radix and str::parse::<u8>. -/
inductive ParseIntError where
  | Empty
  | InvalidDigit
  | PosOverflow
deriving DecidableEq

/-- The ad-hoc error type of the CLI example, from
examples/terminal-temperatures.rs.  Wrapped boxes any std error (here: an
integer parse error); the other variant holds a plain message. -/
inductive AnyError where
  | Wrapped (e : ParseIntError)
  | Message (s : String)
deriving DecidableEq

/-- Value of a character as a digit in a given radix, as char::to_digit. -/
def char_to_digit (radix : Nat) (c : Char) : Option Nat :=
  let v : Option Nat :=
    if '0' ≤ c ∧ c ≤ '9' then some (c.toNat - 48)
    else if 'a' ≤ c ∧ c ≤ 'z' then some (c.toNat - 97 + 10)
    else if 'A' ≤ c ∧ c ≤ 'Z' then some (c.toNat - 65 + 10)
    else none
  match v with
  | some d => if d < radix then some d else none
  | none => none

/-- Digit-folding loop of u8::from_str_radix: checked multiply-accumulate
over the digit characters, failing on a non-digit or on overflow past 255. -/
def parse_digits (radix : Nat) : List Char → Nat → Except ParseIntError Nat
  | [], acc => .ok acc
  | c :: rest, acc =>
    match char_to_digit radix c with
    | none => .error .InvalidDigit
    | some d =>
      if acc * radix + d > 255 then .error .PosOverflow
      else parse_digits radix rest (acc * radix + d)

/-- Rust u8::from_str_radix over a character list: empty input is Empty, a
lone sign or a minus sign on an unsigned type is InvalidDigit, otherwise the
digits are folded with overflow checking. -/
def u8_from_str_radix (radix : Nat) (s : List Char) : Except ParseIntError Nat :=
  match s with
  | [] => .error .Empty
  | '+' :: rest =>
    match rest with
    | [] => .error .InvalidDigit
    | _ => parse_digits radix rest 0
  | '-' :: _ => .error .InvalidDigit
  | _ => parse_digits radix s 0

/-- Test for the literal prefix characters 0 and x, as
str::starts_with("0x") on the address argument. -/
def starts_with_0x (arg : List Char) : Bool :=
  match arg with
  | '0' :: 'x' :: _ => true
  | _ => false

/-- The camera-address parsing step of main in
examples/terminal-temperatures.rs, lines 17-22: a 0x-prefixed argument is
parsed as hexadecimal from the characters after the prefix (split_at(2).1),
anything else as decimal; the question-mark operator wraps a parse failure
into the error returned by main. -/
def parse_camera_address (arg : List Char) : Except AnyError Nat :=
  if starts_with_0x arg then
    (u8_from_str_radix 16 (arg.drop 2)).mapError AnyError.Wrapped
  else
    (u8_from_str_radix 10 arg).mapError AnyError.Wrapped

/-- Decimal digits of a natural number, most significant first. -/
def natNumerals (n : Nat) : List Nat :=
  if n < 10 then [n]
  else natNumerals (n / 10) ++ [n % 10]
termination_by n
decreasing_by exact Nat.div_lt_self (by omega) (by omega)

/-- Concatenation of a list of strings in order. -/
def strJoin : List String → String
  | [] => ""
  | s :: rest => s ++ strJoin rest

/-- Modelled from the spec: hundredths of the absolute value of a
temperature, rounded to nearest, as displayed by a two-decimal format. -/
def formatCents (q : ℚ) : Nat := (q.num.natAbs * 200 + q.den) / (2 * q.den)

/-- Sign prefix of a formatted temperature. -/
def formatSign (q : ℚ) : String := if q < 0 then "-" else ""

/-- Integer-part characters of a formatted temperature. -/
def formatIntPart (q : ℚ) : String :=
  String.mk ((natNumerals (formatCents q / 100)).map Nat.digitChar)

/-- Fractional-part characters of a formatted temperature: always exactly
two digit characters. -/
def formatFrac (q : ℚ) : String :=
  String.mk [Nat.digitChar (formatCents q / 10 % 10), Nat.digitChar (formatCents q % 10)]

/-- Unpadded body of a formatted temperature. -/
def formatBody (q : ℚ) : String :=
  formatSign q ++ formatIntPart q ++ "." ++ formatFrac q

/-- Modelled from the spec: the fixed two-decimal rendering of a temperature
by the Rust format specifier {:4.2} (minimum width four, exactly two digits
after the decimal point, left-padded with spaces).  Temperatures are
embedded as rationals. -/
def format_4_2 (q : ℚ) : String :=
  if (formatBody q).length < 4 then
    String.mk (List.replicate (4 - (formatBody q).length) ' ') ++ formatBody q
  else
    formatBody q

/-- Loop body of print_temperatures from examples/terminal-temperatures.rs:
the enumerate counter starts a new output line whenever it is divisible by
the width, then the temperature is printed with {:4.2} followed by two
spaces. -/
def printGo (width : Nat) : Nat → List ℚ → String
  | _, [] => ""
  | count, t :: rest =>
    (if count % width = 0 then "\n" else "") ++ format_4_2 t ++ "  " ++
      printGo width (count + 1) rest

/-- print_temperatures from examples/terminal-temperatures.rs, as the string
written to standard output. -/
def print_temperatures (temperatures : List ℚ) (width : Nat) : String :=
  printGo width 0 temperatures

/-- wait_for_frame from examples/terminal-temperatures.rs: the generator
closure is embedded as the finite list of outcomes it would produce on
successive calls; polling stops at the first error or the first true, and an
exhausted outcome list corresponds to a loop that is still polling (none). -/
def wait_for_frame : List (Except AnyError Bool) → Option (Except AnyError Unit)
  | [] => none
  | r :: rest =>
    match r with
    | .error e => some (.error e)
    | .ok true => some (.ok ())
    | .ok false => wait_for_frame rest

/-- One-step unfolding of decodeWords on a cons cell. -/
theorem decodeWords_cons (i w : Nat) (ws : List Nat) :
    decodeWords i (w :: ws) =
      match decode_checksum w with
      | none => .error (.Checksum (EEPROM_BASE + i))
      | some p => (decodeWords (i + 1) ws).map (fun rest => p :: rest) := rfl

/-- One-step unfolding of strip_check_bits on a byte pair. -/
theorem strip_cons (b0 b1 : Nat) (rest : List Nat) :
    strip_check_bits (b0 :: b1 :: rest) =
      ((((b0 % 256) * 256 + b1 % 256) &&& HAMMING_DATA_MASK) / 256) ::
        ((((b0 % 256) * 256 + b1 % 256) &&& HAMMING_DATA_MASK) % 256) ::
        strip_check_bits rest := rfl

/-- The all-zero byte buffer yields all-zero words. -/
theorem toWords_replicate_zero (k : Nat) :
    toWords (List.replicate (2 * k) 0) = List.replicate k 0 := by
  induction k with
  | zero => rfl
  | succ n ih =>
    have h2 : 2 * (n + 1) = 2 * n + 1 + 1 := by omega
    rw [h2, List.replicate_succ, List.replicate_succ]
    have hstep : toWords (0 :: 0 :: List.replicate (2 * n) (0 : Nat)) =
        ((0 % 256) * 256 + 0 % 256) :: toWords (List.replicate (2 * n) 0) := rfl
    rw [hstep, ih]
    norm_num [List.replicate_succ]

/-- All-zero words all decode to payload zero. -/
theorem decodeWords_replicate_zero (k : Nat) : ∀ i,
    decodeWords i (List.replicate k 0) = .ok (List.replicate k 0) := by
  induction k with
  | zero => intro i; rfl
  | succ n ih =>
    intro i
    have hz : decode_checksum 0 = some 0 := by decide
    rw [List.replicate_succ]
    simp only [decodeWords, hz]
    rw [ih (i + 1)]
    simp [Except.map, List.replicate_succ]

/-- Stripping check bits fixes the all-zero buffer. -/
theorem strip_replicate_zero (k : Nat) :
    strip_check_bits (List.replicate (2 * k) 0) = List.replicate (2 * k) 0 := by
  induction k with
  | zero => rfl
  | succ n ih =>
    have h2 : 2 * (n + 1) = 2 * n + 1 + 1 := by omega
    rw [h2, List.replicate_succ, List.replicate_succ]
    simp only [strip_check_bits, ih]
    norm_num

/-- Evaluation helper: the primary decode of the all-zero 1664-byte image. -/
theorem m41_from_data_zeros :
    Mlx90641Calibration.from_data (List.replicate 1664 0) =
      .ok ⟨List.replicate 832 0⟩ := by
  have hl : (List.replicate 1664 (0 : Nat)).length = EEPROM_LENGTH := by
    simp [EEPROM_LENGTH]
  unfold Mlx90641Calibration.from_data
  rw [if_neg (by rw [hl]; exact fun hc => hc rfl)]
  have h64 : (1664 : Nat) = 2 * 832 := by norm_num
  rw [h64, toWords_replicate_zero, decodeWords_replicate_zero]
  rfl

/-- Evaluation helper: primary decode of a buffer whose first word decodes
to payload p and whose remaining 831 words are zero. -/
theorem m41_from_data_word0 (b0 b1 p : Nat)
    (hdec : decode_checksum ((b0 % 256) * 256 + b1 % 256) = some p) :
    Mlx90641Calibration.from_data (b0 :: b1 :: List.replicate 1662 0) =
      .ok ⟨p :: List.replicate 831 0⟩ := by
  have hl : (b0 :: b1 :: List.replicate 1662 (0 : Nat)).length = EEPROM_LENGTH := by
    simp [EEPROM_LENGTH]
  have h62 : (1662 : Nat) = 2 * 831 := by norm_num
  have htw : toWords (b0 :: b1 :: List.replicate 1662 (0 : Nat)) =
      ((b0 % 256) * 256 + b1 % 256) :: toWords (List.replicate 1662 0) := rfl
  unfold Mlx90641Calibration.from_data
  rw [if_neg (by rw [hl]; exact fun hc => hc rfl)]
  rw [htw, h62, toWords_replicate_zero, decodeWords_cons, hdec]
  simp only [decodeWords_replicate_zero]
  rfl

/-- Evaluation helper: primary decode of a buffer whose first word is
uncorrectable and whose remaining 831 words are zero. -/
theorem m41_from_data_word0_err (b0 b1 : Nat)
    (hdec : decode_checksum ((b0 % 256) * 256 + b1 % 256) = none) :
    Mlx90641Calibration.from_data (b0 :: b1 :: List.replicate 1662 0) =
      .error (.Checksum 0x2400) := by
  have hl : (b0 :: b1 :: List.replicate 1662 (0 : Nat)).length = EEPROM_LENGTH := by
    simp [EEPROM_LENGTH]
  have htw : toWords (b0 :: b1 :: List.replicate 1662 (0 : Nat)) =
      ((b0 % 256) * 256 + b1 % 256) :: toWords (List.replicate 1662 0) := rfl
  unfold Mlx90641Calibration.from_data
  rw [if_neg (by rw [hl]; exact fun hc => hc rfl)]
  rw [htw, decodeWords_cons, hdec]
  rfl

/-- Evaluation helper: stripping a buffer whose tail is all-zero masks the
first word and leaves the zero bytes unchanged. -/
theorem strip_word0 (b0 b1 : Nat) :
    strip_check_bits (b0 :: b1 :: List.replicate 1662 0) =
      ((((b0 % 256) * 256 + b1 % 256) &&& HAMMING_DATA_MASK) / 256) ::
        ((((b0 % 256) * 256 + b1 % 256) &&& HAMMING_DATA_MASK) % 256) ::
        List.replicate 1662 0 := by
  have h62 : (1662 : Nat) = 2 * 831 := by norm_num
  rw [strip_cons, h62, strip_replicate_zero]

/-- C3: for every byte slice whose length differs from 1664 bytes,
Mlx90642Calibration::from_data returns LibraryError::InvalidData regardless
of the buffer contents, so no checksum decoding or synthesis is performed;
the length check is the first thing evaluated. -/
theorem from_data_rejects_wrong_length (data : List Nat)
    (h : data.length ≠ EEPROM_LENGTH) :
    Mlx90642Calibration.from_data data =
      .error (.InvalidData "MLX90642 EEPROM dump has an unexpected length") := by
  unfold Mlx90642Calibration.from_data
  simp [h]

/-- C3 witness: the four-byte buffer of the rejects_invalid_lengths test is
rejected with InvalidData. -/
theorem from_data_rejects_wrong_length_witness :
    ([0, 0, 0, 0] : List Nat).length ≠ EEPROM_LENGTH ∧
    Mlx90642Calibration.from_data [0, 0, 0, 0] =
      .error (.InvalidData "MLX90642 EEPROM dump has an unexpected length") :=
  ⟨by decide, from_data_rejects_wrong_length _ (by decide)⟩

/-- C6: Mlx90642Calibration::from_data is a pure function of its input
bytes: two calls on equal byte slices return equal results, so repeated
decodes of the same memory image always agree. -/
theorem from_data_deterministic (d1 d2 : List Nat) (h : d1 = d2) :
    Mlx90642Calibration.from_data d1 = Mlx90642Calibration.from_data d2 := by
  rw [h]

/-- C6 witness: two decodes of the same concrete buffer agree. -/
theorem from_data_deterministic_witness :
    ([0, 0, 0, 0] : List Nat) = ([0, 0, 0, 0] : List Nat) ∧
    Mlx90642Calibration.from_data [0, 0, 0, 0] =
      Mlx90642Calibration.from_data [0, 0, 0, 0] :=
  ⟨rfl, from_data_deterministic _ _ rfl⟩

/-- C4: the MLX90642 camera returns exactly the MLX90641 values for
pixel_ranges, pixels_in_subpage, compensation_pixel and
resolution_correction at every argument, and every associated constant
equals the corresponding MLX90641 constant. -/
theorem mlx90642_camera_delegates :
    (∀ s ap, Mlx90642.pixel_ranges s ap = Mlx90641.pixel_ranges s ap) ∧
    (∀ s ap, Mlx90642.pixels_in_subpage s ap = Mlx90641.pixels_in_subpage s ap) ∧
    (∀ s, Mlx90642.compensation_pixel s = Mlx90641.compensation_pixel s) ∧
    (∀ c r, Mlx90642.resolution_correction c r = Mlx90641.resolution_correction c r) ∧
    Mlx90642.T_A_V_BE = Mlx90641.T_A_V_BE ∧
    Mlx90642.T_A_PTAT = Mlx90641.T_A_PTAT ∧
    Mlx90642.GAIN = Mlx90641.GAIN ∧
    Mlx90642.V_DD_PIXEL = Mlx90641.V_DD_PIXEL ∧
    Mlx90642.BASIC_TEMPERATURE_RANGE = Mlx90641.BASIC_TEMPERATURE_RANGE ∧
    Mlx90642.SELF_HEATING = Mlx90641.SELF_HEATING ∧
    Mlx90642.HEIGHT = Mlx90641.HEIGHT ∧
    Mlx90642.WIDTH = Mlx90641.WIDTH ∧
    Mlx90642.NUM_PIXELS = Mlx90641.NUM_PIXELS :=
  ⟨fun _ _ => rfl, fun _ _ => rfl, fun _ => rfl, fun _ _ => rfl, rfl, rfl, rfl,
    rfl, rfl, rfl, rfl, rfl, rfl⟩

/-- C5: every CalibrationData accessor of the MLX90642 calibration wrapper
returns exactly the value produced by the same accessor on the wrapped
MLX90641 calibration, for every subpage and access-pattern argument. -/
theorem mlx90642_calibration_delegates (c : Mlx90642Calibration) (s : Subpage)
    (ap : AccessPattern) :
    c.k_v_dd = c.wrapped.k_v_dd ∧
    c.v_dd_25 = c.wrapped.v_dd_25 ∧
    c.resolution = c.wrapped.resolution ∧
    c.v_dd_0 = c.wrapped.v_dd_0 ∧
    c.k_v_ptat = c.wrapped.k_v_ptat ∧
    c.k_t_ptat = c.wrapped.k_t_ptat ∧
    c.v_ptat_25 = c.wrapped.v_ptat_25 ∧
    c.alpha_ptat = c.wrapped.alpha_ptat ∧
    c.gain = c.wrapped.gain ∧
    c.k_s_ta = c.wrapped.k_s_ta ∧
    c.corner_temperatures = c.wrapped.corner_temperatures ∧
    c.k_s_to = c.wrapped.k_s_to ∧
    c.alpha_correction = c.wrapped.alpha_correction ∧
    c.emissivity = c.wrapped.emissivity ∧
    c.offset_reference_pixels s = c.wrapped.offset_reference_pixels s ∧
    c.offset_reference_cp s = c.wrapped.offset_reference_cp s ∧
    c.alpha_pixels s = c.wrapped.alpha_pixels s ∧
    c.alpha_cp s = c.wrapped.alpha_cp s ∧
    c.k_v_pixels s = c.wrapped.k_v_pixels s ∧
    c.k_v_cp s = c.wrapped.k_v_cp s ∧
    c.k_ta_pixels s = c.wrapped.k_ta_pixels s ∧
    c.k_ta_cp s = c.wrapped.k_ta_cp s ∧
    c.temperature_gradient_coefficient = c.wrapped.temperature_gradient_coefficient ∧
    c.access_pattern_compensation_pixels ap =
      c.wrapped.access_pattern_compensation_pixels ap ∧
    c.access_pattern_compensation_cp s ap =
      c.wrapped.access_pattern_compensation_cp s ap ∧
    c.failed_pixels = c.wrapped.failed_pixels ∧
    c.outlier_pixels = c.wrapped.outlier_pixels :=
  ⟨rfl, rfl, rfl, rfl, rfl, rfl, rfl, rfl, rfl, rfl, rfl, rfl, rfl, rfl, rfl,
    rfl, rfl, rfl, rfl, rfl, rfl, rfl, rfl, rfl, rfl, rfl, rfl⟩

/-- C7: from_i2c issues exactly one write_read transaction, for the full
1664-byte window at base address 0x2400 (register bytes 0x24 0x00), and a
bus failure is surfaced as Error::I2cWriteReadError without any retry and
without parsing. -/
theorem from_i2c_single_transaction (ε : Type) (bus : I2cOp → Except ε (List Nat))
    (i2c_address : Nat) :
    (Mlx90642Calibration.from_i2c ε bus i2c_address).2 =
      [⟨i2c_address, [0x24, 0x00], EEPROM_LENGTH⟩] ∧
    ∀ e, bus ⟨i2c_address, [0x24, 0x00], EEPROM_LENGTH⟩ = .error e →
      (Mlx90642Calibration.from_i2c ε bus i2c_address).1 =
        .error (.I2cWriteReadError e) := by
  have hb : address_as_bytes EEPROM_BASE = [0x24, 0x00] := by decide
  constructor
  · cases hbus : bus ⟨i2c_address, [0x24, 0x00], EEPROM_LENGTH⟩ with
    | error e => simp [Mlx90642Calibration.from_i2c, hb, hbus]
    | ok r => simp [Mlx90642Calibration.from_i2c, hb, hbus]
  · intro e he
    simp [Mlx90642Calibration.from_i2c, hb, he]

/-- C7 witness: with a bus whose single transaction fails, the failure is
surfaced as I2cWriteReadError and exactly one transaction was issued. -/
theorem from_i2c_single_transaction_witness :
    (Mlx90642Calibration.from_i2c Unit (fun _ => .error ()) 0x33).2 =
      [⟨0x33, [0x24, 0x00], EEPROM_LENGTH⟩] ∧
    (Mlx90642Calibration.from_i2c Unit (fun _ => .error ()) 0x33).1 =
      .error (.I2cWriteReadError ()) :=
  ⟨(from_i2c_single_transaction Unit (fun _ => .error ()) 0x33).1,
    (from_i2c_single_transaction Unit (fun _ => .error ()) 0x33).2 () rfl⟩

/-- C1: for a 1664-byte buffer, from_data forwards a primary-decoder success
unchanged, retries on the checksum-synthesized image exactly when the primary
decoder failed with LibraryError::Checksum, and propagates every other error
kind unchanged with no retry. -/
theorem from_data_fallback_only_on_checksum (data : List Nat)
    (h : data.length = EEPROM_LENGTH) :
    (∀ c, Mlx90641Calibration.from_data data = .ok c →
      Mlx90642Calibration.from_data data = .ok ⟨c⟩) ∧
    (∀ a, Mlx90641Calibration.from_data data = .error (.Checksum a) →
      Mlx90642Calibration.from_data data =
        ((Mlx90642Calibration.synthesize_checksums data).bind
          Mlx90641Calibration.from_data).map Mlx90642Calibration.mk) ∧
    (∀ e, Mlx90641Calibration.from_data data = .error e →
      (∀ a, e ≠ .Checksum a) →
      Mlx90642Calibration.from_data data = .error e) := by
  refine ⟨?_, ?_, ?_⟩
  · intro c hc
    unfold Mlx90642Calibration.from_data Mlx90642Calibration.parse_mlx90641_calibration
    simp [h, hc, Except.map]
  · intro a ha
    unfold Mlx90642Calibration.from_data Mlx90642Calibration.parse_mlx90641_calibration
    simp only [h, ha]
    cases hs : Mlx90642Calibration.synthesize_checksums data <;>
      simp [hs, Except.bind, Except.map]
  · intro e he hne
    unfold Mlx90642Calibration.from_data Mlx90642Calibration.parse_mlx90641_calibration
    cases e with
    | Checksum a => exact absurd rfl (hne a)
    | InvalidData m => simp [h, he, Except.map]
    | Configuration m => simp [h, he, Except.map]
    | Status v => simp [h, he, Except.map]

/-- C1 witness: the all-zero 1664-byte image decodes through the primary
parser on the first attempt and from_data forwards that success. -/
theorem from_data_fallback_only_on_checksum_witness :
    (List.replicate 1664 (0 : Nat)).length = EEPROM_LENGTH ∧
    Mlx90642Calibration.from_data (List.replicate 1664 (0 : Nat)) =
      .ok ⟨⟨List.replicate 832 0⟩⟩ :=
  ⟨by simp [EEPROM_LENGTH],
    (from_data_fallback_only_on_checksum _ (by simp [EEPROM_LENGTH])).1
      ⟨List.replicate 832 0⟩ m41_from_data_zeros⟩

/-- C9: a camera-address argument beginning with the exact prefix 0x is
parsed as a hexadecimal u8 from the characters following the prefix, any
other argument is parsed as a decimal u8, and a failure of the selected
parse becomes the error returned by main. -/
theorem camera_address_radix_selection (arg : List Char) :
    (starts_with_0x arg = true →
      parse_camera_address arg =
        (u8_from_str_radix 16 (arg.drop 2)).mapError AnyError.Wrapped) ∧
    (starts_with_0x arg = false →
      parse_camera_address arg =
        (u8_from_str_radix 10 arg).mapError AnyError.Wrapped) ∧
    (∀ e, (if starts_with_0x arg then u8_from_str_radix 16 (arg.drop 2)
           else u8_from_str_radix 10 arg) = .error e →
      parse_camera_address arg = .error (AnyError.Wrapped e)) := by
  refine ⟨?_, ?_, ?_⟩
  · intro hp
    unfold parse_camera_address
    simp [hp]
  · intro hp
    unfold parse_camera_address
    simp [hp]
  · intro e he
    unfold parse_camera_address
    cases hp : starts_with_0x arg <;> simp [hp] at he ⊢ <;> simp [he, Except.mapError]

/-- C9 witness: the argument 0xg0 selects the hexadecimal parse, which fails
on the invalid digit g, and main receives that error. -/
theorem camera_address_radix_selection_witness :
    starts_with_0x ['0', 'x', 'g', '0'] = true ∧
    parse_camera_address ['0', 'x', 'g', '0'] =
      .error (AnyError.Wrapped .InvalidDigit) :=
  ⟨rfl,
    (camera_address_radix_selection ['0', 'x', 'g', '0']).2.2
      ParseIntError.InvalidDigit (by decide)⟩

/-- Induction principle following the two-bytes-at-a-time recursion of the
word-level functions. -/
theorem pairInduction (P : List Nat → Prop) (h0 : P []) (h1 : ∀ b, P [b])
    (h2 : ∀ b0 b1 rest, P rest → P (b0 :: b1 :: rest)) : ∀ l, P l
  | [] => h0
  | [b] => h1 b
  | b0 :: b1 :: rest => h2 b0 b1 rest (pairInduction P h0 h1 h2 rest)

/-- A byte buffer yields one word per two bytes. -/
theorem toWords_length (l : List Nat) : (toWords l).length = l.length / 2 := by
  induction l using pairInduction with
  | h0 => simp [toWords]
  | h1 b => simp [toWords]
  | h2 b0 b1 rest ih =>
    simp only [toWords, List.length_cons, ih]
    omega

/-- Stripping check bits preserves the buffer length. -/
theorem strip_length (l : List Nat) : (strip_check_bits l).length = l.length := by
  induction l using pairInduction with
  | h0 => rfl
  | h1 b => rfl
  | h2 b0 b1 rest ih => simp only [strip_check_bits, List.length_cons, ih]

/-- Checksum synthesis reads each word only through its low 11 bits: buffers
whose words agree after masking produce identical synthesis results. -/
theorem synthWords_low_bits (l1 : List Nat) : ∀ l2 : List Nat,
    (toWords l1).map (fun w => w &&& HAMMING_DATA_MASK) =
      (toWords l2).map (fun w => w &&& HAMMING_DATA_MASK) →
    synthWords l1 = synthWords l2 := by
  induction l1 using pairInduction with
  | h0 =>
    intro l2 h
    match l2 with
    | [] => rfl
    | [b] => rfl
    | c0 :: c1 :: r2 => simp [toWords] at h
  | h1 b =>
    intro l2 h
    match l2 with
    | [] => rfl
    | [b2] => rfl
    | c0 :: c1 :: r2 => simp [toWords] at h
  | h2 b0 b1 rest ih =>
    intro l2 h
    match l2 with
    | [] => simp [toWords] at h
    | [b2] => simp [toWords] at h
    | c0 :: c1 :: r2 =>
      simp only [toWords, List.map_cons, List.cons.injEq] at h
      obtain ⟨hhead, htail⟩ := h
      simp only [synthWords, hhead, ih r2 htail]

/-- Checksum synthesis always succeeds and emits two bytes per input word. -/
theorem synthWords_ok_length (l : List Nat) :
    ∃ out, synthWords l = .ok out ∧ out.length = 2 * (toWords l).length := by
  induction l using pairInduction with
  | h0 => exact ⟨[], rfl, rfl⟩
  | h1 b => exact ⟨[], rfl, rfl⟩
  | h2 b0 b1 rest ih => ?_
  obtain ⟨out, hout, hlen⟩ := ih
  have hle : ((b0 % 256) * 256 + b1 % 256) &&& HAMMING_DATA_MASK ≤ HAMMING_DATA_MASK :=
    Nat.and_le_right
  have hadd : add_checksum (((b0 % 256) * 256 + b1 % 256) &&& HAMMING_DATA_MASK) =
      .ok ((((b0 % 256) * 256 + b1 % 256) &&& HAMMING_DATA_MASK) |||
        (checkBits (((b0 % 256) * 256 + b1 % 256) &&& HAMMING_DATA_MASK) <<< 11)) := by
    unfold add_checksum
    rw [if_neg (Nat.not_lt.mpr hle)]
  refine ⟨(((((b0 % 256) * 256 + b1 % 256) &&& HAMMING_DATA_MASK) |||
      (checkBits (((b0 % 256) * 256 + b1 % 256) &&& HAMMING_DATA_MASK) <<< 11)) / 256 % 256) ::
    (((((b0 % 256) * 256 + b1 % 256) &&& HAMMING_DATA_MASK) |||
      (checkBits (((b0 % 256) * 256 + b1 % 256) &&& HAMMING_DATA_MASK) <<< 11)) % 256) ::
    out, ?_, ?_⟩
  · simp only [synthWords]
    rw [hadd]
    simp [Except.bind, hout, Except.map]
  · simp [toWords, hlen]
    omega

/-- C8: two 1664-byte buffers whose big-endian words agree on their low 11
bits produce byte-identical synthesize_checksums outputs of length 1664: the
fallback decode path is independent of bits 11-15 of every stored word. -/
theorem synthesize_checksums_low_bits (d1 d2 : List Nat)
    (h1 : d1.length = EEPROM_LENGTH) (h2 : d2.length = EEPROM_LENGTH)
    (hmask : (toWords d1).map (fun w => w &&& HAMMING_DATA_MASK) =
      (toWords d2).map (fun w => w &&& HAMMING_DATA_MASK)) :
    Mlx90642Calibration.synthesize_checksums d1 =
      Mlx90642Calibration.synthesize_checksums d2 ∧
    ∃ out, Mlx90642Calibration.synthesize_checksums d1 = .ok out ∧
      out.length = EEPROM_LENGTH := by
  have heq : synthWords d1 = synthWords d2 := synthWords_low_bits d1 d2 hmask
  obtain ⟨out, hout, hlen⟩ := synthWords_ok_length d1
  constructor
  · unfold Mlx90642Calibration.synthesize_checksums
    rw [h1, h2, heq]
  · refine ⟨out, ?_, ?_⟩
    · unfold Mlx90642Calibration.synthesize_checksums
      rw [h1]
      simpa using hout
    · rw [hlen, toWords_length, h1]
      decide

/-- C8 witness: two concrete buffers differing only in a check bit of the
first word synthesize the same 1664-byte output. -/
theorem synthesize_checksums_low_bits_witness :
    (List.replicate 1664 (0 : Nat)).length = EEPROM_LENGTH ∧
    (0x08 :: 0x00 :: List.replicate 1662 (0 : Nat)).length = EEPROM_LENGTH ∧
    (toWords (List.replicate 1664 (0 : Nat))).map (fun w => w &&& HAMMING_DATA_MASK) =
      (toWords (0x08 :: 0x00 :: List.replicate 1662 (0 : Nat))).map
        (fun w => w &&& HAMMING_DATA_MASK) ∧
    Mlx90642Calibration.synthesize_checksums (List.replicate 1664 (0 : Nat)) =
      Mlx90642Calibration.synthesize_checksums
        (0x08 :: 0x00 :: List.replicate 1662 (0 : Nat)) := by
  have h1 : (List.replicate 1664 (0 : Nat)).length = EEPROM_LENGTH := by
    simp [EEPROM_LENGTH]
  have h2 : (0x08 :: 0x00 :: List.replicate 1662 (0 : Nat)).length = EEPROM_LENGTH := by
    simp [EEPROM_LENGTH]
  have h64 : (1664 : Nat) = 2 * 832 := by norm_num
  have h62 : (1662 : Nat) = 2 * 831 := by norm_num
  have htw : toWords (0x08 :: 0x00 :: List.replicate 1662 (0 : Nat)) =
      ((0x08 % 256) * 256 + 0x00 % 256) :: toWords (List.replicate 1662 0) := rfl
  have hm : (toWords (List.replicate 1664 (0 : Nat))).map
      (fun w => w &&& HAMMING_DATA_MASK) =
      (toWords (0x08 :: 0x00 :: List.replicate 1662 (0 : Nat))).map
        (fun w => w &&& HAMMING_DATA_MASK) := by
    rw [h64, toWords_replicate_zero, htw, h62, toWords_replicate_zero]
    simp only [List.map_replicate, List.map_cons]
    rw [show (0 : Nat) &&& HAMMING_DATA_MASK = 0 from by decide,
      show ((0x08 % 256) * 256 + 0x00 % 256) &&& HAMMING_DATA_MASK = 0 from by decide,
      show (832 : Nat) = 831 + 1 from by norm_num, List.replicate_succ]
  exact ⟨h1, h2, hm, (synthesize_checksums_low_bits _ _ h1 h2 hm).1⟩

/-- Recombining the data bits with the shifted-out check bits reconstructs
the word. -/
theorem low_or_high_recompose (w : Nat) :
    (w &&& HAMMING_DATA_MASK) ||| ((w >>> 11) <<< 11) = w := by
  apply Nat.eq_of_testBit_eq
  intro j
  rcases Nat.lt_or_ge j 11 with hj | hj
  · have hm : HAMMING_DATA_MASK.testBit j = true := by
      interval_cases j <;> decide
    simp [Nat.testBit_or, Nat.testBit_and, Nat.testBit_shiftLeft, hm, Nat.not_le.mpr hj]
  · have hm : HAMMING_DATA_MASK.testBit j = false := by
      apply Nat.testBit_lt_two_pow
      calc HAMMING_DATA_MASK < 2 ^ 11 := by decide
        _ ≤ 2 ^ j := Nat.pow_le_pow_right (by omega) hj
    have hsub : 11 + (j - 11) = j := by omega
    simp [Nat.testBit_or, Nat.testBit_and, Nat.testBit_shiftLeft,
      Nat.testBit_shiftRight, hm, hj, hsub]

/-- On a buffer whose words all carry a zero Hamming syndrome, stripping the
check bits and re-synthesizing them reconstructs a buffer with exactly the
original words. -/
theorem synthWords_strip_of_zero_syndrome (l : List Nat)
    (hz : ∀ w ∈ toWords l, zero_syndrome w = true) :
    ∃ out, synthWords (strip_check_bits l) = .ok out ∧
      toWords out = toWords l ∧ out.length = 2 * (toWords l).length := by
  induction l using pairInduction with
  | h0 => exact ⟨[], rfl, rfl, rfl⟩
  | h1 b => exact ⟨[], rfl, rfl, rfl⟩
  | h2 b0 b1 rest ih => ?_
  have hzw : zero_syndrome ((b0 % 256) * 256 + b1 % 256) = true := by
    apply hz
    simp [toWords]
  have hzrest : ∀ w ∈ toWords rest, zero_syndrome w = true := by
    intro w hw
    apply hz
    simp [toWords, hw]
  obtain ⟨out, hout, hwords, hlen⟩ := ih hzrest
  set w := (b0 % 256) * 256 + b1 % 256 with hwdef
  have hwlt : w < 65536 := by
    have : b0 % 256 < 256 := Nat.mod_lt _ (by omega)
    have : b1 % 256 < 256 := Nat.mod_lt _ (by omega)
    omega
  have hzw2 : w >>> 11 = checkBits (w &&& HAMMING_DATA_MASK) := by
    have := of_decide_eq_true hzw
    rwa [Nat.mod_eq_of_lt hwlt] at this
  set m := w &&& HAMMING_DATA_MASK with hmdef
  have hmle : m ≤ HAMMING_DATA_MASK := Nat.and_le_right
  have hmlt : m ≤ 2047 := hmle
  -- the raw word recomputed by synthWords from the stripped bytes is m
  have hraw : (m / 256 % 256) * 256 + m % 256 % 256 = m := by omega
  -- masking is idempotent
  have hmm : m &&& HAMMING_DATA_MASK = m := by
    rw [hmdef, Nat.and_assoc, Nat.and_self]
  -- the synthesized codeword is the original word
  have hcode : m ||| (checkBits m <<< 11) = w := by
    rw [hmdef, ← hzw2]
    exact low_or_high_recompose w
  have hadd : add_checksum m = .ok w := by
    unfold add_checksum
    rw [if_neg (Nat.not_lt.mpr hmle), hcode]
  refine ⟨(w / 256 % 256) :: (w % 256) :: out, ?_, ?_, ?_⟩
  · simp only [strip_check_bits, synthWords]
    rw [hraw, hmm, hadd]
    simp [Except.bind, hout, Except.map]
  · simp only [toWords]
    rw [hwords]
    have : (w / 256 % 256 % 256) * 256 + w % 256 % 256 = w := by omega
    rw [this]
  · simp [toWords, hlen]
    omega

/-- C2 counterexample: a 1664-byte image whose first word is the valid
codeword of payload 1 decodes successfully through the primary MLX90641
parser, yet from_data on the checksum-stripped image returns Ok of a
different calibration: the stripped first word carries the syndrome of a
single data-bit error, so the primary decoder silently corrects payload 1 to
payload 0 instead of taking the synthesis fallback. -/
theorem strip_roundtrip_counterexample :
    Mlx90641Calibration.from_data (0x38 :: 0x01 :: List.replicate 1662 0) =
      .ok ⟨1 :: List.replicate 831 0⟩ ∧
    Mlx90642Calibration.from_data
        (strip_check_bits (0x38 :: 0x01 :: List.replicate 1662 0)) =
      .ok ⟨⟨0 :: List.replicate 831 0⟩⟩ ∧
    Mlx90642Calibration.from_data
        (strip_check_bits (0x38 :: 0x01 :: List.replicate 1662 0)) ≠
      (Mlx90641Calibration.from_data (0x38 :: 0x01 :: List.replicate 1662 0)).map
        Mlx90642Calibration.mk := by
  have hdir : Mlx90641Calibration.from_data (0x38 :: 0x01 :: List.replicate 1662 0) =
      .ok ⟨1 :: List.replicate 831 0⟩ :=
    m41_from_data_word0 0x38 0x01 1 (by decide)
  have hmask1 : ((0x38 % 256) * 256 + 0x01 % 256) &&& HAMMING_DATA_MASK = 1 := by decide
  have hstrip : strip_check_bits (0x38 :: 0x01 :: List.replicate 1662 0) =
      0 :: 1 :: List.replicate 1662 0 := by
    rw [strip_word0, hmask1]
  have hm41s : Mlx90641Calibration.from_data (0 :: 1 :: List.replicate 1662 0) =
      .ok ⟨0 :: List.replicate 831 0⟩ :=
    m41_from_data_word0 0 1 0 (by decide)
  have hfd : Mlx90642Calibration.from_data
      (strip_check_bits (0x38 :: 0x01 :: List.replicate 1662 0)) =
      .ok ⟨⟨0 :: List.replicate 831 0⟩⟩ := by
    rw [hstrip]
    have hl : (0 :: 1 :: List.replicate 1662 (0 : Nat)).length = EEPROM_LENGTH := by
      simp [EEPROM_LENGTH]
    unfold Mlx90642Calibration.from_data Mlx90642Calibration.parse_mlx90641_calibration
    rw [if_neg (by rw [hl]; exact fun hc => hc rfl)]
    rw [hm41s]
    rfl
  refine ⟨hdir, hfd, ?_⟩
  rw [hfd, hdir]
  simp [Except.map]

/-- C2 amended: for a 1664-byte image in which every big-endian word is an
exact codeword (zero Hamming syndrome), if the primary decode of the
checksum-stripped image fails with a checksum error — so the synthesis
fallback actually runs — then from_data on the stripped image returns
exactly the primary decode of the original image, wrapped. -/
theorem from_data_strip_fallback (data : List Nat)
    (h : data.length = EEPROM_LENGTH)
    (hz : ∀ w ∈ toWords data, zero_syndrome w = true)
    (a : Nat)
    (hfb : Mlx90641Calibration.from_data (strip_check_bits data) =
      .error (.Checksum a)) :
    Mlx90642Calibration.from_data (strip_check_bits data) =
      (Mlx90641Calibration.from_data data).map Mlx90642Calibration.mk := by
  have hsl : (strip_check_bits data).length = EEPROM_LENGTH := by
    rw [strip_length, h]
  obtain ⟨out, hout, hw, hlen⟩ := synthWords_strip_of_zero_syndrome data hz
  have hol : out.length = EEPROM_LENGTH := by
    rw [hlen, toWords_length, h]
    decide
  have hsynth : Mlx90642Calibration.synthesize_checksums (strip_check_bits data) =
      .ok out := by
    unfold Mlx90642Calibration.synthesize_checksums
    rw [hsl]
    simpa using hout
  have hm41 : Mlx90641Calibration.from_data out = Mlx90641Calibration.from_data data := by
    unfold Mlx90641Calibration.from_data
    rw [hol, h, hw]
  unfold Mlx90642Calibration.from_data Mlx90642Calibration.parse_mlx90641_calibration
  rw [if_neg (by rw [hsl]; exact fun hc => hc rfl)]
  rw [hfb, hsynth]
  show Except.map Mlx90642Calibration.mk (Mlx90641Calibration.from_data out) =
    Except.map Mlx90642Calibration.mk (Mlx90641Calibration.from_data data)
  rw [hm41]

/-- C2 amended witness: a concrete all-valid-codeword image whose stripped
form fails the primary decode with a checksum error at the first word, and
for which the fallback reproduces the direct decode. -/
theorem from_data_strip_fallback_witness :
    (0x60 :: 0x03 :: List.replicate 1662 (0 : Nat)).length = EEPROM_LENGTH ∧
    (∀ w ∈ toWords (0x60 :: 0x03 :: List.replicate 1662 (0 : Nat)),
      zero_syndrome w = true) ∧
    Mlx90641Calibration.from_data
        (strip_check_bits (0x60 :: 0x03 :: List.replicate 1662 (0 : Nat))) =
      .error (.Checksum 0x2400) ∧
    Mlx90642Calibration.from_data
        (strip_check_bits (0x60 :: 0x03 :: List.replicate 1662 (0 : Nat))) =
      (Mlx90641Calibration.from_data
        (0x60 :: 0x03 :: List.replicate 1662 (0 : Nat))).map Mlx90642Calibration.mk := by
  have hl : (0x60 :: 0x03 :: List.replicate 1662 (0 : Nat)).length = EEPROM_LENGTH := by
    simp [EEPROM_LENGTH]
  have h62 : (1662 : Nat) = 2 * 831 := by norm_num
  have htw : toWords (0x60 :: 0x03 :: List.replicate 1662 (0 : Nat)) =
      ((0x60 % 256) * 256 + 0x03 % 256) :: toWords (List.replicate 1662 0) := rfl
  have hz : ∀ w ∈ toWords (0x60 :: 0x03 :: List.replicate 1662 (0 : Nat)),
      zero_syndrome w = true := by
    rw [htw, h62, toWords_replicate_zero]
    intro w hw
    rcases List.mem_cons.mp hw with h | h
    · subst h; decide
    · rw [List.eq_of_mem_replicate h]; decide
  have hmask3 : ((0x60 % 256) * 256 + 0x03 % 256) &&& HAMMING_DATA_MASK = 3 := by decide
  have hstrip : strip_check_bits (0x60 :: 0x03 :: List.replicate 1662 0) =
      0 :: 3 :: List.replicate 1662 0 := by
    rw [strip_word0, hmask3]
  have hfb : Mlx90641Calibration.from_data
      (strip_check_bits (0x60 :: 0x03 :: List.replicate 1662 (0 : Nat))) =
      .error (.Checksum 0x2400) := by
    rw [hstrip]
    exact m41_from_data_word0_err 0 3 (by decide)
  exact ⟨hl, hz, hfb, from_data_strip_fallback _ hl hz 0x2400 hfb⟩

/-- Every entry of the decimal digit expansion is a digit. -/
theorem natNumerals_digits (n : Nat) : ∀ d ∈ natNumerals n, d < 10 := by
  induction n using Nat.strong_induction_on with
  | _ n ih =>
    intro d hd
    rw [natNumerals] at hd
    by_cases h : n < 10
    · rw [if_pos h] at hd
      simp at hd
      omega
    · rw [if_neg h] at hd
      rcases List.mem_append.mp hd with hd | hd
      · exact ih (n / 10) (Nat.div_lt_self (by omega) (by omega)) d hd
      · simp at hd
        omega

/-- Digit characters are never a decimal point. -/
theorem digitChar_ne_dot (d : Nat) (h : d < 10) : Nat.digitChar d ≠ '.' := by
  interval_cases d <;> decide

/-- String append is associative. -/
theorem strAppend_assoc (a b c : String) : a ++ b ++ c = a ++ (b ++ c) := by
  apply String.ext
  simp [String.data_append, List.append_assoc]

/-- The sign prefix contains no decimal point. -/
theorem formatSign_no_dot (q : ℚ) : ∀ ch ∈ (formatSign q).data, ch ≠ '.' := by
  unfold formatSign
  by_cases hq : q < 0
  · rw [if_pos hq]
    intro ch hch
    have hd : ("-" : String).data = ['-'] := rfl
    rw [hd] at hch
    rw [List.mem_singleton.mp hch]
    decide
  · rw [if_neg hq]
    intro ch hch
    have hd : ("" : String).data = [] := rfl
    rw [hd] at hch
    simp at hch

/-- The integer part contains no decimal point. -/
theorem formatIntPart_no_dot (q : ℚ) : ∀ ch ∈ (formatIntPart q).data, ch ≠ '.' := by
  unfold formatIntPart
  intro ch hch
  rcases List.mem_map.mp hch with ⟨d, hd, hdc⟩
  rw [← hdc]
  exact digitChar_ne_dot d (natNumerals_digits _ d hd)

/-- The {:4.2} rendering always ends in a decimal point followed by exactly
two digit characters, and its prefix contains no decimal point. -/
theorem format_4_2_two_decimals (q : ℚ) :
    ∃ p a b, a < 10 ∧ b < 10 ∧
      format_4_2 q = p ++ "." ++ String.mk [Nat.digitChar a, Nat.digitChar b] ∧
      ∀ ch ∈ p.data, ch ≠ '.' := by
  unfold format_4_2
  by_cases hlen : (formatBody q).length < 4
  · rw [if_pos hlen]
    refine ⟨String.mk (List.replicate (4 - (formatBody q).length) ' ') ++
      (formatSign q ++ formatIntPart q), formatCents q / 10 % 10, formatCents q % 10,
      by omega, by omega, ?_, ?_⟩
    · show _ = _ ++ "." ++ formatFrac q
      unfold formatBody
      apply String.ext
      simp [String.data_append, List.append_assoc]
    · intro ch hch
      rw [String.data_append] at hch
      rcases List.mem_append.mp hch with hch | hch
      · rw [List.eq_of_mem_replicate hch]
        decide
      · rw [String.data_append] at hch
        rcases List.mem_append.mp hch with hch | hch
        · exact formatSign_no_dot q ch hch
        · exact formatIntPart_no_dot q ch hch
  · rw [if_neg hlen]
    refine ⟨formatSign q ++ formatIntPart q, formatCents q / 10 % 10, formatCents q % 10,
      by omega, by omega, ?_, ?_⟩
    · show _ = _ ++ "." ++ formatFrac q
      unfold formatBody
      rfl
    · intro ch hch
      rw [String.data_append] at hch
      rcases List.mem_append.mp hch with hch | hch
      · exact formatSign_no_dot q ch hch
      · exact formatIntPart_no_dot q ch hch

/-- Peeling the first index off a joined range of strings. -/
theorem strJoin_range_shift (f : Nat → String) (n : Nat) :
    strJoin ((List.range (n + 1)).map f) =
      f 0 ++ strJoin ((List.range n).map (fun i => f (i + 1))) := by
  rw [List.range_succ_eq_map, List.map_cons, List.map_map]
  have hjoin : ∀ (s : String) (ss : List String), strJoin (s :: ss) = s ++ strJoin ss :=
    fun s ss => rfl
  rw [hjoin]
  rfl

/-- The printing loop emits, for the element at buffer position i, a newline
exactly when i (offset by the starting counter) is divisible by the width,
then the formatted temperature and two spaces, in buffer order. -/
theorem printGo_characterization (width : Nat) (l : List ℚ) : ∀ c,
    printGo width c l = strJoin ((List.range l.length).map (fun i =>
      (if (c + i) % width = 0 then "\n" else "") ++
        format_4_2 (l.getD i 0) ++ "  ")) := by
  induction l with
  | nil => intro c; rfl
  | cons t rest ih =>
    intro c
    rw [printGo, ih (c + 1), List.length_cons, strJoin_range_shift]
    have hfun : (fun i => (if (c + (i + 1)) % width = 0 then "\n" else "") ++
        format_4_2 ((t :: rest).getD (i + 1) 0) ++ "  ") =
        (fun i => (if (c + 1 + i) % width = 0 then "\n" else "") ++
          format_4_2 (rest.getD i 0) ++ "  ") := by
      funext i
      have harith : c + (i + 1) = c + 1 + i := by omega
      rw [harith, List.getD_cons_succ]
    rw [hfun]
    have hhead : (if (c + 0) % width = 0 then ("\n" : String) else "") ++
        format_4_2 ((t :: rest).getD 0 0) ++ "  " =
        (if c % width = 0 then "\n" else "") ++ format_4_2 t ++ "  " := by
      rw [Nat.add_zero, List.getD_cons_zero]
    rw [hhead]

/-- C10: print_temperatures writes the temperature buffer in row-major
(buffer) order, starting a new output line exactly at every index divisible
by the width, and every temperature rendering carries exactly two digits
after the decimal point. -/
theorem print_temperatures_layout (temperatures : List ℚ) (width : Nat)
    (_h : 0 < width) :
    print_temperatures temperatures width =
      strJoin ((List.range temperatures.length).map (fun i =>
        (if i % width = 0 then "\n" else "") ++
          format_4_2 (temperatures.getD i 0) ++ "  ")) ∧
    ∀ t : ℚ, ∃ p a b, a < 10 ∧ b < 10 ∧
      format_4_2 t = p ++ "." ++ String.mk [Nat.digitChar a, Nat.digitChar b] ∧
      ∀ ch ∈ p.data, ch ≠ '.' := by
  constructor
  · have hgo := printGo_characterization width temperatures 0
    simpa [print_temperatures] using hgo
  · intro t
    exact format_4_2_two_decimals t

/-- C10 witness: a three-element buffer printed at width two. -/
theorem print_temperatures_layout_witness :
    (0 : Nat) < 2 ∧
    (print_temperatures [(7 : ℚ) / 2, 1 / 4, 21] 2 =
      strJoin ((List.range ([(7 : ℚ) / 2, 1 / 4, 21].length)).map (fun i =>
        (if i % 2 = 0 then "\n" else "") ++
          format_4_2 ([(7 : ℚ) / 2, 1 / 4, 21].getD i 0) ++ "  ")) ∧
    ∀ t : ℚ, ∃ p a b, a < 10 ∧ b < 10 ∧
      format_4_2 t = p ++ "." ++ String.mk [Nat.digitChar a, Nat.digitChar b] ∧
      ∀ ch ∈ p.data, ch ≠ '.') :=
  ⟨by norm_num, print_temperatures_layout [(7 : ℚ) / 2, 1 / 4, 21] 2 (by norm_num)⟩
